import Mathlib

/-
Verification of the interview orchestration engine of the interview_system
repository: question selection, answer depth scoring, the follow-up decision
protocol, the session state machine, and the undo/rollback mechanism.

The Python sources are shallowly embedded as executable Lean definitions:
  * strings are Lean strings (Python str), machine integers are Nat (all the
    quantities involved - indexes, counts, scores, lengths - are non-negative
    in every reachable state of the source),
  * the pseudo-random choices (random.Random(seed).choice / random.choice /
    random.shuffle) are modelled by explicit oracle parameters constrained by
    membership / permutation contracts,
  * the LLM provider (api_client.generate_followup / the FollowupLLM
    protocol) is an oracle function returning Option String,
  * wall-clock timestamps (datetime.now) are an explicit Nat parameter,
  * fallible repository calls are modelled by their reported boolean result.
-/

/-! ## Python string primitives -/

/-- Python str.lower, character by character (embedding of answer.lower()). -/
def pyLower (s : String) : String := ⟨s.data.map Char.toLower⟩

/-- Drop trailing whitespace (helper for pyStrip). -/
def trimEnd (l : List Char) : List Char :=
  (l.reverse.dropWhile Char.isWhitespace).reverse

/-- Python str.strip(): remove leading and trailing whitespace. -/
def pyStrip (s : String) : String :=
  ⟨trimEnd (s.data.dropWhile Char.isWhitespace)⟩

/-- Python substring test: needle in hay. -/
def inStr (needle hay : String) : Bool := decide (needle.data <:+: hay.data)

/-- Number of (possibly overlapping) occurrences of needle in hay: the number
of start positions at which needle matches.  Used to state the spec's
"count once per occurrence" reading of the depth score. -/
def countOccur (hay needle : List Char) : Nat :=
  (List.range (hay.length + 1)).countP (fun i => decide (needle <+: hay.drop i))

/-! ## Data model

Topic mirrors the dict-shaped entries of the topic catalog (questions.py):
name, scene, edu_type, questions, followups.  ConversationEntry mirrors
interview_system/domain/value_objects/conversation_entry.py (the legacy
dict-shaped log entries carry the same fields). -/

structure Topic where
  name : String
  scene : String
  edu_type : String
  questions : List String
  followups : List String
deriving DecidableEq

/-- Embedding of (topic.get("questions") or [""])[0]. -/
def firstQuestion (t : Topic) : String :=
  match t.questions with
  | [] => ""
  | q :: _ => q

structure ConversationEntry where
  timestamp : Nat
  topic : String
  question_type : String
  question : String
  answer : String
  depth_score : Nat
  is_ai_generated : Bool
deriving DecidableEq

/-! ## AnswerProcessor
(src/src/interview_system/domain/services/answer_processor.py) -/

/-- Result record of AnswerProcessor (answer_processor.py, AnswerResult). -/
structure AnswerResult where
  timestamp : Nat
  topic : String
  question_type : String
  question : String
  answer : String
  depth_score : Nat
  is_ai_generated : Bool
deriving DecidableEq

structure AnswerProcessor where
  depth_keywords : List String
  common_keywords : List String
  max_depth_score : Nat
deriving DecidableEq

/-- Embedding of AnswerProcessor.score_depth (answer_processor.py lines
40-45): empty answer scores 0; otherwise count the keyword entries that occur
as substrings of the lower-cased answer and clamp at max_depth_score. -/
def AnswerProcessor.score_depth (p : AnswerProcessor) (answer : String) : Nat :=
  if answer = "" then 0
  else min (p.depth_keywords.countP (fun kw => inStr kw (pyLower answer))) p.max_depth_score

/-- Embedding of AnswerProcessor.process_core_answer (answer_processor.py
lines 53-66).  The datetime.now timestamp is the explicit now parameter. -/
def AnswerProcessor.process_core_answer (p : AnswerProcessor) (now : Nat)
    (answer : String) (topic : Topic) (question_text : Option String) : AnswerResult :=
  let question :=
    match question_text with
    | some q => if q = "" then firstQuestion topic else q
    | none => firstQuestion topic
  let valid_answer := if pyStrip answer = "" then "用户未给出有效回答" else pyStrip answer
  { timestamp := now
    topic := topic.name
    question_type := "核心问题"
    question := question
    answer := valid_answer
    depth_score := p.score_depth valid_answer
    is_ai_generated := false }

/-- Embedding of AnswerProcessor.process_followup_answer (answer_processor.py
lines 68-86). -/
def AnswerProcessor.process_followup_answer (p : AnswerProcessor) (now : Nat)
    (answer : String) (topic : Topic) (followup_question : String)
    (is_ai_generated : Bool) : AnswerResult :=
  let valid_answer := if pyStrip answer = "" then "用户未补充回答" else pyStrip answer
  { timestamp := now
    topic := topic.name
    question_type := "追问回答"
    question := if followup_question = "" then "（追问）" else followup_question
    answer := valid_answer
    depth_score := p.score_depth valid_answer
    is_ai_generated := is_ai_generated }

/-! ## FollowupGenerator
(src/src/interview_system/domain/services/followup_generator.py) -/

/-- Oracle for the FollowupLLM protocol: generate_followup(answer, topic,
conversation_log) returning str or None. -/
abbrev FollowupLLM := String → Topic → Option (List ConversationEntry) → Option String

/-- Oracle for random.Random(seed).choice over the preset list. -/
abbrev Picker := Option Nat → List String → String

structure FollowupResult where
  need_followup : Bool
  followup_question : String
  is_ai_generated : Bool
deriving DecidableEq

structure FollowupGenerator where
  llm : Option FollowupLLM
  min_answer_length : Nat
  max_followups_per_question : Nat
  max_depth_score : Nat

/-- Embedding of FollowupGenerator.should_followup (followup_generator.py
lines 45-77), with the seeded rng choice supplied by the pick oracle.
A Python empty-string reply from the LLM is falsy, so it falls through to the
preset branch exactly like None does. -/
def FollowupGenerator.should_followup (g : FollowupGenerator) (pick : Picker)
    (answer : String) (topic : Topic)
    (conversation_log : Option (List ConversationEntry))
    (current_followup_count : Nat) (depth_score : Nat)
    (seed : Option Nat) : FollowupResult :=
  let valid_answer := pyStrip answer
  if g.max_followups_per_question ≤ current_followup_count then
    ⟨false, "", false⟩
  else
    let force : Bool := valid_answer == "" || valid_answer.length < g.min_answer_length
    if g.max_depth_score ≤ depth_score then
      ⟨false, "", false⟩
    else
      let llm_reply : Option String :=
        match g.llm with
        | some llm => llm valid_answer topic conversation_log
        | none => none
      let fallback : FollowupResult :=
        if force then
          let presets := if topic.followups.isEmpty then ["能再具体说说吗？"] else topic.followups
          ⟨true, pick seed presets, false⟩
        else ⟨false, "", false⟩
      match llm_reply with
      | some q => if q = "" then fallback else ⟨true, q, true⟩
      | none => fallback

/-! ## Legacy engine (src/interview_engine.py)

The flat legacy layout has its own InterviewEngine with score_depth and
should_followup; the api_client.generate_followup call is the api oracle and
random.choice is the pickL oracle. -/

structure InterviewConfig where
  total_questions : Nat
  min_answer_length : Nat
  max_followups_per_question : Nat
  max_depth_score : Nat
  depth_keywords : List String
  common_keywords : List String

/-- Default depth keyword list of config.py (InterviewConfig.depth_keywords). -/
def defaultDepthKeywords : List String :=
  ["例子", "经历", "具体", "当时", "那次", "有一次", "记得",
   "感受", "感觉", "觉得", "认为", "反思", "思考", "意识到",
   "影响", "收获", "学到", "成长", "改变", "进步", "提升",
   "因为", "所以", "后来", "结果", "过程", "细节",
   "开心", "难过", "紧张", "兴奋", "感动", "印象深刻",
   "帮助", "支持", "合作", "沟通", "交流", "一起"]

/-- Default common keyword list of config.py. -/
def defaultCommonKeywords : List String :=
  ["时间", "方法", "计划", "目标", "团队",
   "互动", "冲突", "经验", "学习", "情绪",
   "家人", "朋友", "老师", "同学", "邻居"]

/-- Default InterviewConfig of config.py (INTERVIEW_CONFIG). -/
def defaultInterviewConfig : InterviewConfig :=
  { total_questions := 6
    min_answer_length := 15
    max_followups_per_question := 3
    max_depth_score := 4
    depth_keywords := defaultDepthKeywords
    common_keywords := defaultCommonKeywords }

/-- Embedding of the legacy InterviewEngine.score_depth
(src/interview_engine.py lines 127-142). -/
def engineScoreDepth (cfg : InterviewConfig) (answer : String) : Nat :=
  if answer = "" then 0
  else min (cfg.depth_keywords.countP (fun kw => inStr kw (pyLower answer))) cfg.max_depth_score

/-- Embedding of the legacy InterviewEngine._generate_followup_question
(src/interview_engine.py lines 201-242).  api is the api_client oracle, pickL
the random.choice oracle; the catalog topics always carry a followups key so
topic.get("followups", default) is the followups field. -/
def engineGenFollowup (api : FollowupLLM) (pickL : List String → String)
    (log : List ConversationEntry) (answer : String) (topic : Topic)
    (force : Bool) : Bool × String × Bool :=
  match api answer topic (some log) with
  | some q =>
    if q = "" then
      if force then (true, pickL topic.followups, false) else (false, "", false)
    else (true, q, true)
  | none =>
    if force then (true, pickL topic.followups, false) else (false, "", false)

/-- Embedding of the legacy InterviewEngine.should_followup
(src/interview_engine.py lines 160-199).  Note the ordering: the ceiling
check comes first, then the short-answer force branch, and only afterwards
the depth short-circuit. -/
def engineShouldFollowup (cfg : InterviewConfig) (api : FollowupLLM)
    (pickL : List String → String) (log : List ConversationEntry)
    (followup_count : Nat) (answer : String) (topic : Topic) : Bool × String × Bool :=
  let valid_answer := pyStrip answer
  let depth_score := engineScoreDepth cfg valid_answer
  if cfg.max_followups_per_question ≤ followup_count then (false, "", false)
  else if valid_answer = "" || valid_answer.length < cfg.min_answer_length then
    engineGenFollowup api pickL log valid_answer topic true
  else if cfg.max_depth_score ≤ depth_score then (false, "", false)
  else engineGenFollowup api pickL log valid_answer topic false

/-! ## Application service
(src/src/interview_system/application/services/interview_service.py)

The abstract repository is in-memory state: a DSession record plus the
ordered conversation entry list of that session.  Repository save/append
calls always succeed (the repository contract); the service's own control
flow is embedded verbatim. -/

inductive SessionStatus where
  | active
  | completed
deriving DecidableEq

/-- Embedding of the domain Session entity
(src/src/interview_system/domain/entities/session.py). -/
structure DSession where
  user_name : String
  status : SessionStatus
  current_question_idx : Nat
  selected_topics : List Topic
  is_followup : Bool
  current_followup_is_ai : Bool
  current_followup_count : Nat
  current_followup_question : String
deriving DecidableEq

structure ServiceState where
  session : DSession
  entries : List ConversationEntry
deriving DecidableEq

inductive ServiceError where
  | session_not_found
  | session_already_completed
  | nothing_to_undo
deriving DecidableEq

structure InterviewResultDTO where
  assistant_message : String
  is_finished : Bool
deriving DecidableEq

/-- Static collaborators of InterviewService: the answer processor, the
followup generator, the rng pick oracle, the configured question count and
the per-session seed int(session.id.int and 0xFFFFFFFF). -/
structure InterviewService where
  processor : AnswerProcessor
  generator : FollowupGenerator
  pick : Picker
  total_questions : Nat
  seed : Option Nat

/-- Embedding of InterviewService._get_current_topic (interview_service.py
lines 235-241); a Nat index cannot be negative. -/
def getCurrentTopic (s : DSession) : Option Topic :=
  s.selected_topics.get? s.current_question_idx

/-- Embedding of InterviewService._format_core_question (lines 243-246). -/
def formatCoreQuestion (svc : InterviewService) (s : DSession) (t : Topic) : String :=
  "【第" ++ toString (s.current_question_idx + 1) ++ "/" ++
    toString svc.total_questions ++ "题】" ++ t.name ++ ":\n" ++ firstQuestion t

/-- Embedding of InterviewService._current_question_text (lines 248-255). -/
def currentQuestionText (svc : InterviewService) (s : DSession) : String :=
  if s.is_followup then
    if s.current_followup_question = "" then "能再具体说说吗？" else s.current_followup_question
  else
    match getCurrentTopic s with
    | none => "访谈已结束，感谢您的参与！"
    | some t => formatCoreQuestion svc s t

/-- ConversationEntry built from an AnswerResult, field for field, as the
service does before append_conversation_entry. -/
def entryOfResult (r : AnswerResult) : ConversationEntry :=
  { timestamp := r.timestamp
    topic := r.topic
    question_type := r.question_type
    question := r.question
    answer := r.answer
    depth_score := r.depth_score
    is_ai_generated := r.is_ai_generated }

/-- Embedding of InterviewService._process_core_answer (interview_service.py
lines 257-312). -/
def InterviewService.processCore (svc : InterviewService) (now : Nat)
    (st : ServiceState) (topic : Topic) (answer : String) :
    ServiceState × InterviewResultDTO :=
  let question_text := formatCoreQuestion svc st.session topic
  let result := svc.processor.process_core_answer now answer topic (some question_text)
  let entry := { entryOfResult result with is_ai_generated := false }
  let entries := st.entries ++ [entry]
  let f := svc.generator.should_followup svc.pick result.answer topic none
    st.session.current_followup_count result.depth_score svc.seed
  if f.need_followup then
    let s := { st.session with
      is_followup := true
      current_followup_is_ai := f.is_ai_generated
      current_followup_count := st.session.current_followup_count + 1
      current_followup_question := f.followup_question }
    (⟨s, entries⟩, ⟨f.followup_question, false⟩)
  else
    let s := { st.session with
      current_question_idx := st.session.current_question_idx + 1
      is_followup := false
      current_followup_is_ai := false
      current_followup_count := 0
      current_followup_question := "" }
    if svc.total_questions ≤ s.current_question_idx then
      (⟨{ s with status := .completed }, entries⟩, ⟨"访谈已结束，感谢您的参与！", true⟩)
    else
      (⟨s, entries⟩, ⟨currentQuestionText svc s, false⟩)

/-- Embedding of InterviewService._process_followup_answer
(interview_service.py lines 314-372). -/
def InterviewService.processFollowup (svc : InterviewService) (now : Nat)
    (st : ServiceState) (topic : Topic) (answer : String) :
    ServiceState × InterviewResultDTO :=
  let followup_q :=
    if st.session.current_followup_question = "" then "（追问）"
    else st.session.current_followup_question
  let result := svc.processor.process_followup_answer now answer topic followup_q
    st.session.current_followup_is_ai
  let entry := entryOfResult result
  let entries := st.entries ++ [entry]
  let f := svc.generator.should_followup svc.pick result.answer topic none
    st.session.current_followup_count result.depth_score svc.seed
  if f.need_followup then
    let s := { st.session with
      is_followup := true
      current_followup_is_ai := f.is_ai_generated
      current_followup_count := st.session.current_followup_count + 1
      current_followup_question := f.followup_question }
    (⟨s, entries⟩, ⟨f.followup_question, false⟩)
  else
    let s := { st.session with
      is_followup := false
      current_followup_is_ai := false
      current_followup_count := 0
      current_followup_question := ""
      current_question_idx := st.session.current_question_idx + 1 }
    if svc.total_questions ≤ s.current_question_idx then
      (⟨{ s with status := .completed }, entries⟩, ⟨"访谈已结束，感谢您的参与！", true⟩)
    else
      (⟨s, entries⟩, ⟨currentQuestionText svc s, false⟩)

/-- Embedding of InterviewService.process_answer (interview_service.py lines
78-103): completed sessions are rejected before any entry is appended or any
field is touched; a missing current topic finishes the session. -/
def InterviewService.processAnswer (svc : InterviewService) (now : Nat)
    (st : ServiceState) (answer : String) :
    Except ServiceError (ServiceState × InterviewResultDTO) :=
  if st.session.status = .completed then .error .session_already_completed
  else
    match getCurrentTopic st.session with
    | none =>
      .ok (⟨{ st.session with status := .completed }, st.entries⟩,
           ⟨"访谈已结束，感谢您的参与！", true⟩)
    | some topic =>
      if st.session.is_followup then .ok (svc.processFollowup now st topic answer)
      else .ok (svc.processCore now st topic answer)

/-- Embedding of InterviewService.skip_question (interview_service.py lines
105-151). -/
def InterviewService.skipQuestion (svc : InterviewService) (now : Nat)
    (st : ServiceState) : Except ServiceError (ServiceState × InterviewResultDTO) :=
  if st.session.status = .completed then .error .session_already_completed
  else
    match getCurrentTopic st.session with
    | none =>
      .ok (⟨{ st.session with status := .completed }, st.entries⟩,
           ⟨"访谈已结束，感谢您的参与！", true⟩)
    | some topic =>
      let question_text := currentQuestionText svc st.session
      let entry : ConversationEntry :=
        { timestamp := now
          topic := topic.name
          question_type := if st.session.is_followup then "追问跳过" else "核心问题"
          question := question_text
          answer := if st.session.is_followup then "用户选择跳过追问" else "用户选择跳过"
          depth_score := 0
          is_ai_generated := st.session.current_followup_is_ai }
      let entries := st.entries ++ [entry]
      let s1 :=
        if st.session.is_followup then
          { st.session with
            is_followup := false
            current_followup_count := 0
            current_followup_question := ""
            current_followup_is_ai := false }
        else st.session
      let s2 := { s1 with current_question_idx := s1.current_question_idx + 1 }
      if svc.total_questions ≤ s2.current_question_idx then
        .ok (⟨{ s2 with status := .completed }, entries⟩, ⟨"访谈已结束，感谢您的参与！", true⟩)
      else
        .ok (⟨s2, entries⟩, ⟨currentQuestionText svc s2, false⟩)

/-- Embedding of InterviewService.undo_last (interview_service.py lines
153-178): delete the last entry (error if none), step the session back, and
resurrect a completed session to ACTIVE.  max(0, n-1) is Nat subtraction. -/
def InterviewService.undoLast (_svc : InterviewService) (st : ServiceState) :
    Except ServiceError ServiceState :=
  match st.entries.getLast? with
  | none => .error .nothing_to_undo
  | some last =>
    let entries := st.entries.dropLast
    let s1 :=
      if inStr "追问" last.question_type then
        { st.session with
          is_followup := true
          current_followup_question := last.question
          current_followup_is_ai := last.is_ai_generated
          current_followup_count := st.session.current_followup_count - 1 }
      else
        { st.session with
          current_question_idx := st.session.current_question_idx - 1
          is_followup := false
          current_followup_is_ai := false
          current_followup_count := 0
          current_followup_question := "" }
    let s2 : DSession :=
      if s1.status = SessionStatus.completed then { s1 with status := .active } else s1
    .ok ⟨s2, entries⟩

/-- Embedding of InterviewService.restart (interview_service.py lines
180-199): delete every entry and reset the session fields. -/
def InterviewService.restart (_svc : InterviewService) (st : ServiceState) : ServiceState :=
  ⟨{ st.session with
      current_question_idx := 0
      is_followup := false
      current_followup_is_ai := false
      current_followup_count := 0
      current_followup_question := ""
      status := .active }, []⟩

/-- Iterated process_answer calls (one per answer), stopping at the first
error, used to state sequence properties. -/
def runAnswers (svc : InterviewService) (now : Nat) :
    ServiceState → List String → Except ServiceError ServiceState
  | st, [] => .ok st
  | st, a :: rest =>
    match svc.processAnswer now st a with
    | .error e => .error e
    | .ok (st', _) => runAnswers svc now st' rest

/-! ## SessionManager rollback and web handler undo
(src/src/interview_system/services/session_manager.py lines 254-320,
src/src/interview_system/ui/web_handler.py lines 34-59 and 202-235)

The legacy InterviewSession dataclass is WebSession; the optional database is
modelled by the boolean outcome its rollback_session_state call would report
(none when no database is configured).  The handler state holds the bounded
undo stack (most recent snapshot first) and the chat history. -/

structure WebSession where
  session_id : String
  user_name : String
  start_time : String
  end_time : String
  is_finished : Bool
  current_question_idx : Nat
  is_followup : Bool
  current_followup_is_ai : Bool
  current_followup_count : Nat
  current_followup_question : String
  selected_topics : List Topic
  conversation_log : List ConversationEntry
deriving DecidableEq

/-- Snapshot of the session fields taken by
InterviewHandler._capture_session_state (web_handler.py lines 34-47). -/
structure SessionSnapshot where
  session_id : String
  current_question_idx : Nat
  is_finished : Bool
  end_time : String
  is_followup : Bool
  current_followup_is_ai : Bool
  current_followup_count : Nat
  current_followup_question : String
deriving DecidableEq

/-- Chat history message (role, content). -/
structure ChatMsg where
  role : String
  content : String
deriving DecidableEq

/-- Undo snapshot pushed by InterviewHandler._push_undo_snapshot
(web_handler.py lines 49-59). -/
structure UndoSnapshot where
  history_before : List ChatMsg
  submitted_text : String
  session_state_before : SessionSnapshot
  log_count_before : Nat
deriving DecidableEq

/-- Embedding of SessionManager.rollback_session (session_manager.py lines
254-320) for the session in question.  db is none when no database is
configured, some b when the database rollback_session_state call reports b.
The boolean result is Python's return value; on False the session is
returned untouched (the source returns before its memory-mutation block). -/
def rollback_session (db : Option Bool) (session : WebSession)
    (target_log_count : Nat) (session_state : SessionSnapshot) :
    Bool × WebSession :=
  let current_log_count := session.conversation_log.length
  if current_log_count < target_log_count then (false, session)
  else if db = some false then (false, session)
  else
    (true,
     { session with
        conversation_log := session.conversation_log.take target_log_count
        current_question_idx := session_state.current_question_idx
        is_finished := session_state.is_finished
        end_time := if session_state.is_finished then session_state.end_time else ""
        is_followup := session_state.is_followup
        current_followup_is_ai := session_state.current_followup_is_ai
        current_followup_count := session_state.current_followup_count
        current_followup_question := session_state.current_followup_question })

/-- Web handler state: the undo snapshot stack (most recent first, deque of
maxlen 10), the session and the chat history. -/
structure HandlerState where
  undo_stack : List UndoSnapshot
  session : WebSession
  history : List ChatMsg
deriving DecidableEq

/-- Embedding of InterviewHandler.undo_last (web_handler.py lines 202-235).
Returns the new handler state together with the restored input text.  When
the rollback reports failure the snapshot stack is left unpopped, the
session untouched, and only an error line is appended to the chat. -/
def web_undo_last (db : Option Bool) (st : HandlerState) : HandlerState × String :=
  match st.undo_stack with
  | [] =>
    ({ st with history := st.history ++ [⟨"assistant", "暂无可撤回内容。"⟩] }, "")
  | snapshot :: rest =>
    let outcome := rollback_session db st.session snapshot.log_count_before
      snapshot.session_state_before
    if outcome.1 then
      (⟨rest, outcome.2, snapshot.history_before⟩, snapshot.submitted_text)
    else
      ({ st with history := st.history ++
          [⟨"assistant", "撤回失败：数据回滚未成功，请稍后重试。"⟩] }, "")

/-! ## QuestionSelector
(src/src/interview_system/domain/services/question_selector.py lines 15-66;
the class-based selector in src/src/interview_system/core/question_selector.py
runs the same three phases with a set instead of a list for the missing
dimensions)

The rng is an oracle: pickT models the successive rng.choice calls (indexed
by a call counter so each call may choose differently) and shuffle models the
final rng.shuffle. -/

/-- One topic per configured scene (question_selector.py lines 35-40): break
once total is reached, skip scenes with no topics, otherwise append one
rng.choice from the scene group. -/
def pickScenes (pickT : Nat → List Topic → Topic) (scene_group : String → List Topic)
    (total : Nat) : List String → List Topic → Nat → List Topic × Nat
  | [], sel, n => (sel, n)
  | s :: rest, sel, n =>
    if total ≤ sel.length then (sel, n)
    else
      let g := scene_group s
      if g.isEmpty then pickScenes pickT scene_group total rest sel n
      else pickScenes pickT scene_group total rest (sel ++ [pickT n g]) (n + 1)

/-- Fill missing education dimensions (question_selector.py lines 42-55):
pop the needed dimensions in order while budget remains, choosing an unused
topic of that dimension when one exists. -/
def fillEdu (pickT : Nat → List Topic → Topic) (edu_group : String → List Topic)
    (total : Nat) (selected : List Topic) :
    List String → List Topic → Nat → List Topic × Nat
  | [], filled, n => (filled, n)
  | e :: rest, filled, n =>
    if selected.length + filled.length < total then
      let candidates := (edu_group e).filter (fun t => t ∉ selected ∧ t ∉ filled)
      if candidates.isEmpty then fillEdu pickT edu_group total selected rest filled n
      else fillEdu pickT edu_group total selected rest (filled ++ [pickT n candidates]) (n + 1)
    else (filled, n)

/-- Fill the remaining slots from the leftover pool without repeats
(question_selector.py lines 57-62).  The fuel argument is the pool size; the
rng contract (the choice is a member, hence erased each round) makes this
exactly the source's while loop. -/
def fillRemaining (pickT : Nat → List Topic → Topic) (total selLen : Nat) :
    Nat → List Topic → List Topic → Nat → List Topic
  | 0, _, filled, _ => filled
  | fuel + 1, remaining, filled, n =>
    if selLen + filled.length < total ∧ ¬remaining.isEmpty then
      let chosen := pickT n remaining
      fillRemaining pickT total selLen fuel
        (remaining.erase chosen) (filled ++ [chosen]) (n + 1)
    else filled

/-- Scene grouping of question_selector.py lines 25-30: the group of a scene
holds exactly the topics tagged with it, in catalog order. -/
def sceneGroupOf (topics : List Topic) : String → List Topic :=
  fun s => topics.filter (fun t => t.scene = s)

/-- Education-dimension grouping of question_selector.py lines 25-30. -/
def eduGroupOf (topics : List Topic) : String → List Topic :=
  fun e => topics.filter (fun t => t.edu_type = e)

/-- Stage 1 local of select_questions: the scene picks and the rng counter
after them (question_selector.py lines 32-40). -/
def sq_sceneOut (pickT : Nat → List Topic → Topic) (topics : List Topic)
    (scenes : List String) (total_questions : Nat) : List Topic × Nat :=
  pickScenes pickT (sceneGroupOf topics) total_questions scenes [] 0

/-- The selected list after the scene loop. -/
def sq_selected (pickT : Nat → List Topic → Topic) (topics : List Topic)
    (scenes : List String) (total_questions : Nat) : List Topic :=
  (sq_sceneOut pickT topics scenes total_questions).1

/-- The dimensions still missing after the scene picks
(question_selector.py lines 43-44). -/
def sq_needed (pickT : Nat → List Topic → Topic) (topics : List Topic)
    (scenes edu_types : List String) (total_questions : Nat) : List String :=
  edu_types.filter (fun e =>
    e ∉ (sq_selected pickT topics scenes total_questions).map (fun t => t.edu_type))

/-- Stage 2 local: the dimension gap-filling loop
(question_selector.py lines 46-55). -/
def sq_eduOut (pickT : Nat → List Topic → Topic) (topics : List Topic)
    (scenes edu_types : List String) (total_questions : Nat) : List Topic × Nat :=
  fillEdu pickT (eduGroupOf topics) total_questions
    (sq_selected pickT topics scenes total_questions)
    (sq_needed pickT topics scenes edu_types total_questions) []
    (sq_sceneOut pickT topics scenes total_questions).2

/-- The filled list after the dimension loop. -/
def sq_filled (pickT : Nat → List Topic → Topic) (topics : List Topic)
    (scenes edu_types : List String) (total_questions : Nat) : List Topic :=
  (sq_eduOut pickT topics scenes edu_types total_questions).1

/-- The leftover pool (question_selector.py line 58). -/
def sq_remaining (pickT : Nat → List Topic → Topic) (topics : List Topic)
    (scenes edu_types : List String) (total_questions : Nat) : List Topic :=
  topics.filter (fun t =>
    t ∉ sq_selected pickT topics scenes total_questions ∧
    t ∉ sq_filled pickT topics scenes edu_types total_questions)

/-- Stage 3 local: the random filling of the remaining slots
(question_selector.py lines 59-62) appended after the dimension fills. -/
def sq_filledAll (pickT : Nat → List Topic → Topic) (topics : List Topic)
    (scenes edu_types : List String) (total_questions : Nat) : List Topic :=
  fillRemaining pickT total_questions
    (sq_selected pickT topics scenes total_questions).length
    (sq_remaining pickT topics scenes edu_types total_questions).length
    (sq_remaining pickT topics scenes edu_types total_questions)
    (sq_filled pickT topics scenes edu_types total_questions)
    (sq_eduOut pickT topics scenes edu_types total_questions).2

/-- Embedding of select_questions (question_selector.py lines 15-66), staged
through the named locals above: selected.extend(filled) then rng.shuffle. -/
def select_questions (pickT : Nat → List Topic → Topic)
    (shuffle : List Topic → List Topic) (topics : List Topic)
    (scenes edu_types : List String) (total_questions : Nat) : List Topic :=
  shuffle (sq_selected pickT topics scenes total_questions ++
    sq_filledAll pickT topics scenes edu_types total_questions)

/-! ## String lemmas -/

theorem dropWhile_dropWhile_same (p : Char → Bool) (l : List Char) :
    (l.dropWhile p).dropWhile p = l.dropWhile p := by
  induction l with
  | nil => rfl
  | cons a l ih =>
    by_cases h : p a
    · simp [List.dropWhile_cons, h, ih]
    · simp [List.dropWhile_cons, h]

theorem trimEnd_idem (l : List Char) : trimEnd (trimEnd l) = trimEnd l := by
  unfold trimEnd
  rw [List.reverse_reverse, dropWhile_dropWhile_same]

theorem trimEnd_isPre (l : List Char) : trimEnd l <+: l := by
  have h : (trimEnd l).reverse <:+ l.reverse := by
    unfold trimEnd
    rw [List.reverse_reverse]
    exact List.dropWhile_suffix _
  exact List.reverse_suffix.mp h

theorem head?_dropWhile_not (p : Char → Bool) (l : List Char) (a : Char)
    (h : (l.dropWhile p).head? = some a) : p a = false := by
  induction l with
  | nil => simp at h
  | cons b l ih =>
    rw [List.dropWhile_cons] at h
    cases hb : p b with
    | true =>
      rw [hb] at h
      simp only [if_true] at h
      exact ih h
    | false =>
      rw [hb] at h
      simp at h
      rw [← h]
      exact hb

theorem head?_of_isPre (l₁ l₂ : List Char) (h : l₁ <+: l₂) (a : Char)
    (hh : l₁.head? = some a) : l₂.head? = some a := by
  obtain ⟨t, rfl⟩ := h
  cases l₁ with
  | nil => simp at hh
  | cons b l =>
    simp only [List.head?_cons, Option.some.injEq] at hh
    simpa using hh

theorem dropWhile_trimEnd (l : List Char)
    (hl : ∀ a, l.head? = some a → Char.isWhitespace a = false) :
    (trimEnd l).dropWhile Char.isWhitespace = trimEnd l := by
  cases htE : trimEnd l with
  | nil => rfl
  | cons a t =>
    have hpre : (a :: t) <+: l := htE ▸ trimEnd_isPre l
    have ha : Char.isWhitespace a = false :=
      hl a (head?_of_isPre _ _ hpre a rfl)
    rw [List.dropWhile_cons]
    simp [ha]

theorem pyStrip_idem (s : String) : pyStrip (pyStrip s) = pyStrip s := by
  unfold pyStrip
  have hM : ∀ a, (s.data.dropWhile Char.isWhitespace).head? = some a →
      Char.isWhitespace a = false := fun a h => head?_dropWhile_not _ _ a h
  show String.mk (trimEnd ((trimEnd (s.data.dropWhile Char.isWhitespace)).dropWhile
    Char.isWhitespace)) = String.mk (trimEnd (s.data.dropWhile Char.isWhitespace))
  rw [dropWhile_trimEnd _ hM, trimEnd_idem]

/-! ## FollowupGenerator branch lemmas -/

theorem should_followup_ceiling (g : FollowupGenerator) (pick : Picker)
    (answer : String) (topic : Topic) (log : Option (List ConversationEntry))
    (c d : Nat) (s : Option Nat) (h : g.max_followups_per_question ≤ c) :
    g.should_followup pick answer topic log c d s = ⟨false, "", false⟩ := by
  unfold FollowupGenerator.should_followup
  simp [h]

theorem should_followup_need_lt (g : FollowupGenerator) (pick : Picker)
    (answer : String) (topic : Topic) (log : Option (List ConversationEntry))
    (c d : Nat) (s : Option Nat)
    (h : (g.should_followup pick answer topic log c d s).need_followup = true) :
    c < g.max_followups_per_question := by
  by_contra hc
  push_neg at hc
  rw [should_followup_ceiling g pick answer topic log c d s hc] at h
  simp at h

theorem should_followup_depth_stop (g : FollowupGenerator) (pick : Picker)
    (answer : String) (topic : Topic) (log : Option (List ConversationEntry))
    (c d : Nat) (s : Option Nat) (hc : c < g.max_followups_per_question)
    (hd : g.max_depth_score ≤ d) :
    g.should_followup pick answer topic log c d s = ⟨false, "", false⟩ := by
  unfold FollowupGenerator.should_followup
  simp [Nat.not_le.mpr hc, hd]

theorem should_followup_no_llm_long (g : FollowupGenerator) (pick : Picker)
    (answer : String) (topic : Topic) (log : Option (List ConversationEntry))
    (c d : Nat) (s : Option Nat) (hllm : g.llm = none)
    (hne : pyStrip answer ≠ "")
    (hlen : g.min_answer_length ≤ (pyStrip answer).length) :
    g.should_followup pick answer topic log c d s = ⟨false, "", false⟩ := by
  unfold FollowupGenerator.should_followup
  by_cases hc : g.max_followups_per_question ≤ c
  · simp [hc]
  · by_cases hd : g.max_depth_score ≤ d
    · simp [hc, hd]
    · simp [hc, hd, hllm, hne, Nat.not_lt.mpr hlen]

/-- Predicate: the provider is absent or would yield nothing (None or the
falsy empty string) on this call. -/
def llmNothing (g : FollowupGenerator) (answer : String) (topic : Topic)
    (log : Option (List ConversationEntry)) : Prop :=
  match g.llm with
  | none => True
  | some llm => llm (pyStrip answer) topic log = none ∨ llm (pyStrip answer) topic log = some ""

theorem should_followup_forced_preset (g : FollowupGenerator) (pick : Picker)
    (answer : String) (topic : Topic) (log : Option (List ConversationEntry))
    (c d : Nat) (s : Option Nat)
    (hllm : llmNothing g answer topic log)
    (hc : c < g.max_followups_per_question) (hd : d < g.max_depth_score)
    (hforce : pyStrip answer = "" ∨ (pyStrip answer).length < g.min_answer_length) :
    g.should_followup pick answer topic log c d s =
      ⟨true, pick s (if topic.followups.isEmpty then ["能再具体说说吗？"] else topic.followups),
        false⟩ := by
  unfold FollowupGenerator.should_followup
  have hforce' : (pyStrip answer == "" ||
      decide ((pyStrip answer).length < g.min_answer_length)) = true := by
    rcases hforce with h | h <;> simp [h]
  unfold llmNothing at hllm
  cases hg : g.llm with
  | none => simp [Nat.not_le.mpr hc, Nat.not_le.mpr hd, hg, hforce']
  | some llm =>
    rw [hg] at hllm
    rcases hllm with h | h <;>
      simp [Nat.not_le.mpr hc, Nat.not_le.mpr hd, hg, h, hforce']

theorem should_followup_unforced_nothing (g : FollowupGenerator) (pick : Picker)
    (answer : String) (topic : Topic) (log : Option (List ConversationEntry))
    (c d : Nat) (s : Option Nat)
    (hllm : llmNothing g answer topic log)
    (hne : pyStrip answer ≠ "")
    (hlen : g.min_answer_length ≤ (pyStrip answer).length) :
    g.should_followup pick answer topic log c d s = ⟨false, "", false⟩ := by
  unfold FollowupGenerator.should_followup
  by_cases hc : g.max_followups_per_question ≤ c
  · simp [hc]
  · by_cases hd : g.max_depth_score ≤ d
    · simp [hc, hd]
    · unfold llmNothing at hllm
      cases hg : g.llm with
      | none => simp [hc, hd, hg, hne, Nat.not_lt.mpr hlen]
      | some llm =>
        rw [hg] at hllm
        rcases hllm with h | h <;>
          simp [hc, hd, hg, h, hne, Nat.not_lt.mpr hlen]

/-! ## Occurrence counting and substring membership -/

theorem infix_iff_exists_drop (needle hay : List Char) :
    needle <:+: hay ↔ ∃ i, i < hay.length + 1 ∧ needle <+: hay.drop i := by
  constructor
  · rintro ⟨s, t, rfl⟩
    refine ⟨s.length, ?_, ?_⟩
    · simp [List.length_append]
      omega
    · rw [List.append_assoc, List.drop_left]
      exact List.prefix_append needle t
  · rintro ⟨i, _, hpre⟩
    exact hpre.isInfix.trans (List.drop_suffix i hay).isInfix

theorem countOccur_pos_iff (hay needle : List Char) :
    0 < countOccur hay needle ↔ needle <:+: hay := by
  unfold countOccur
  rw [List.countP_pos_iff]
  constructor
  · rintro ⟨i, hi, hp⟩
    rw [List.mem_range] at hi
    rw [decide_eq_true_iff] at hp
    exact (infix_iff_exists_drop needle hay).mpr ⟨i, hi, hp⟩
  · intro h
    obtain ⟨i, hi, hp⟩ := (infix_iff_exists_drop needle hay).mp h
    exact ⟨i, List.mem_range.mpr hi, decide_eq_true hp⟩

theorem inStr_iff_countOccur_pos (needle hay : String) :
    inStr needle hay = true ↔ 0 < countOccur hay.data needle.data := by
  unfold inStr
  rw [decide_eq_true_iff]
  exact (countOccur_pos_iff hay.data needle.data).symm

/-! ## Shared concrete fixtures for witnesses and counterexamples -/

/-- Concrete topic in the shape of the catalog entries. -/
def exTopic : Topic :=
  { name := "学校-德育"
    scene := "学校"
    edu_type := "德育"
    questions := ["你如何看待校园诚信？"]
    followups := ["能再具体说说吗？", "能举个例子吗？"] }

/-- Concrete generator with the default config and no provider. -/
def exGen : FollowupGenerator :=
  { llm := none, min_answer_length := 15, max_followups_per_question := 3, max_depth_score := 4 }

/-- Concrete seeded rng oracle: always the first element. -/
def headPick : Picker := fun _ l => l.headD ""

theorem headPick_mem : ∀ (sd : Option Nat) (l : List String), l ≠ [] → headPick sd l ∈ l := by
  intro sd l h
  cases l with
  | nil => exact absurd rfl h
  | cons a t => simp [headPick]

/-- Concrete answer processor used in counterexamples. -/
def exProc : AnswerProcessor :=
  { depth_keywords := ["具体"], common_keywords := [], max_depth_score := 4 }

/-! ## C1: depth short-circuit -/

/-- C1 counterexample: in the legacy InterviewEngine.should_followup
(src/interview_engine.py lines 160-199) a short answer whose depth score
already equals max_depth_score is still force-probed: with no API available
the engine returns a preset follow-up, so need_followup is true even though
the follow-up count is below the ceiling and the depth score is maximal,
refuting the claim as stated for that cited implementation. -/
theorem c1_engine_counterexample :
    engineScoreDepth defaultInterviewConfig (pyStrip "因为所以后来结果") =
      defaultInterviewConfig.max_depth_score ∧
    0 < defaultInterviewConfig.max_followups_per_question ∧
    engineShouldFollowup defaultInterviewConfig (fun _ _ _ => none) (fun l => l.headD "")
      [] 0 "因为所以后来结果" exTopic = (true, "能再具体说说吗？", false) := by
  decide

/-- C1 (amended, proved for the domain FollowupGenerator.should_followup of
followup_generator.py lines 45-77): whenever the current follow-up count is
below max_followups_per_question and depth_score equals max_depth_score, the
result is need_followup = false with empty question and is_ai_generated =
false, for every answer (of any length), every topic, conversation log, seed,
rng oracle and provider. -/
theorem c1_depth_short_circuit (g : FollowupGenerator) (pick : Picker)
    (answer : String) (topic : Topic) (log : Option (List ConversationEntry))
    (c : Nat) (s : Option Nat) (hc : c < g.max_followups_per_question) :
    g.should_followup pick answer topic log c g.max_depth_score s = ⟨false, "", false⟩ :=
  should_followup_depth_stop g pick answer topic log c g.max_depth_score s hc (Nat.le_refl _)

/-- C1 witness: the amended theorem applied to a concrete empty answer. -/
theorem c1_depth_short_circuit_witness :
    exGen.should_followup headPick "" exTopic none 0 exGen.max_depth_score none =
      ⟨false, "", false⟩ :=
  c1_depth_short_circuit exGen headPick "" exTopic none 0 none (by decide)

/-! ## C5: forced preset fallback -/

/-- C5: with the provider absent or yielding nothing, the count below the
ceiling and the depth below max: a forced turn (trimmed answer empty or
shorter than min_answer_length) yields need_followup = true with a preset
follow-up drawn from topic.followups (or the generic default question when
that list is empty) marked non-AI; an unforced turn yields need_followup =
false.  Provider failure is never propagated as an error: the embedding of
should_followup is a total function. -/
theorem c5_forced_preset_fallback (g : FollowupGenerator) (pick : Picker)
    (answer : String) (topic : Topic) (log : Option (List ConversationEntry))
    (c d : Nat) (s : Option Nat)
    (hpick : ∀ (sd : Option Nat) (l : List String), l ≠ [] → pick sd l ∈ l)
    (hllm : llmNothing g answer topic log)
    (hc : c < g.max_followups_per_question) (hd : d < g.max_depth_score) :
    ((pyStrip answer = "" ∨ (pyStrip answer).length < g.min_answer_length) →
      (g.should_followup pick answer topic log c d s).need_followup = true ∧
      (g.should_followup pick answer topic log c d s).is_ai_generated = false ∧
      ((g.should_followup pick answer topic log c d s).followup_question ∈ topic.followups ∨
        (topic.followups = [] ∧
          (g.should_followup pick answer topic log c d s).followup_question = "能再具体说说吗？"))) ∧
    (¬(pyStrip answer = "" ∨ (pyStrip answer).length < g.min_answer_length) →
      g.should_followup pick answer topic log c d s = ⟨false, "", false⟩) := by
  constructor
  · intro hforce
    rw [should_followup_forced_preset g pick answer topic log c d s hllm hc hd hforce]
    refine ⟨rfl, rfl, ?_⟩
    cases hfu : topic.followups with
    | nil =>
      right
      refine ⟨rfl, ?_⟩
      have hm := hpick s ["能再具体说说吗？"] (by simp)
      simp only [List.mem_singleton] at hm
      simp [hfu, hm]
    | cons a t =>
      left
      have hne : ¬(a :: t).isEmpty = true := by simp
      simp only [hfu, hne, if_false]
      exact hfu ▸ hpick s (a :: t) (by simp)
  · intro hnf
    push_neg at hnf
    exact should_followup_unforced_nothing g pick answer topic log c d s hllm hnf.1 hnf.2

/-- C5 witness: concrete forced turn (short answer, no provider) returns the
first preset non-AI, and a concrete 15-character unforced turn returns no
follow-up. -/
theorem c5_forced_preset_fallback_witness :
    exGen.should_followup headPick "短" exTopic none 0 0 (some 1) =
      ⟨true, "能再具体说说吗？", false⟩ ∧
    exGen.should_followup headPick "这个回答足够长了吧我觉得可以了" exTopic none 0 0 (some 1) =
      ⟨false, "", false⟩ := by
  constructor
  · have h := (c5_forced_preset_fallback exGen headPick "短" exTopic none 0 0 (some 1)
      headPick_mem trivial (by decide) (by decide)).1 (Or.inr (by decide))
    have hr := should_followup_forced_preset exGen headPick "短" exTopic none 0 0 (some 1)
      trivial (by decide) (by decide) (Or.inr (by decide))
    exact hr.trans (by decide)
  · exact (c5_forced_preset_fallback exGen headPick "这个回答足够长了吧我觉得可以了" exTopic none
      0 0 (some 1) headPick_mem trivial (by decide) (by decide)).2 (by decide)

/-! ## C8: depth scoring rule -/

/-- Modelled from the spec words of C8 for comparison only: lower-case the
answer and count every occurrence of every depth keyword (overlapping
occurrences allowed, one count per occurrence), clamped to max_depth_score. -/
def score_depth_claimed (p : AnswerProcessor) (answer : String) : Nat :=
  min ((p.depth_keywords.map (fun kw => countOccur (pyLower answer).data kw.data)).sum)
    p.max_depth_score

/-- C8 counterexample: with the single keyword 具体 and the answer 具体具体
(two occurrences, clamp 4), the code scores 1 - one per keyword entry that
occurs - not 2 as the per-occurrence claim states. -/
theorem c8_per_occurrence_counterexample :
    exProc.score_depth "具体具体" = 1 ∧
    score_depth_claimed exProc "具体具体" = 2 ∧
    exProc.score_depth "具体具体" ≠ score_depth_claimed exProc "具体具体" := by
  decide

/-- C8 (amended): score_depth lower-cases the answer and counts how many
entries of the keyword list occur at least once as a substring - each list
entry contributing at most one no matter how many (possibly overlapping)
occurrences it has - clamped to max_depth_score; the empty answer scores 0
and the result never exceeds max_depth_score. -/
theorem c8_depth_scoring (p : AnswerProcessor) (answer : String) :
    p.score_depth answer ≤ p.max_depth_score ∧
    p.score_depth answer =
      (if answer = "" then 0
       else min (p.depth_keywords.countP
          (fun kw => decide (0 < countOccur (pyLower answer).data kw.data)))
         p.max_depth_score) := by
  constructor
  · unfold AnswerProcessor.score_depth
    split
    · exact Nat.zero_le _
    · exact Nat.min_le_right _ _
  · unfold AnswerProcessor.score_depth
    split
    · rfl
    · congr 1
      apply List.countP_congr
      intro kw _
      rw [decide_eq_true_iff]
      exact inStr_iff_countOccur_pos kw (pyLower answer)

/-! ## C9: blank-answer sentinel -/

/-- C9 counterexample: on a blank answer the two processors substitute
different sentinel texts, so they do not differ only in question_type and
question text. -/
theorem c9_sentinel_counterexample :
    (exProc.process_core_answer 0 "" exTopic none).answer = "用户未给出有效回答" ∧
    (exProc.process_followup_answer 0 "" exTopic "F" false).answer = "用户未补充回答" ∧
    (exProc.process_core_answer 0 "" exTopic none).answer ≠
      (exProc.process_followup_answer 0 "" exTopic "F" false).answer := by
  decide

/-- C9 (amended): both processors trim whitespace, replace a blank answer by
a sentinel before scoring and before building the result (the answer is never
dropped), and always return a complete log-ready result (the embeddings are
total functions); beyond the question_type tag and the question text, they
differ only in which sentinel a blank answer gets (and hence possibly its
depth score); topic, timestamp and the is_ai flag agree when the follow-up
one is called with is_ai_generated = false. -/
theorem c9_blank_sentinel (p : AnswerProcessor) (now : Nat) (answer : String)
    (topic : Topic) (question_text : Option String) (followup_question : String)
    (ai : Bool) :
    (pyStrip answer = "" →
      (p.process_core_answer now answer topic question_text).answer = "用户未给出有效回答" ∧
      (p.process_followup_answer now answer topic followup_question ai).answer = "用户未补充回答") ∧
    (pyStrip answer ≠ "" →
      (p.process_core_answer now answer topic question_text).answer = pyStrip answer ∧
      (p.process_followup_answer now answer topic followup_question ai).answer = pyStrip answer ∧
      (p.process_core_answer now answer topic question_text).depth_score =
        (p.process_followup_answer now answer topic followup_question ai).depth_score) ∧
    (p.process_core_answer now answer topic question_text).depth_score =
      p.score_depth (p.process_core_answer now answer topic question_text).answer ∧
    (p.process_followup_answer now answer topic followup_question ai).depth_score =
      p.score_depth (p.process_followup_answer now answer topic followup_question ai).answer ∧
    (p.process_core_answer now answer topic question_text).question_type = "核心问题" ∧
    (p.process_followup_answer now answer topic followup_question ai).question_type = "追问回答" ∧
    (p.process_core_answer now answer topic question_text).topic =
      (p.process_followup_answer now answer topic followup_question ai).topic ∧
    (p.process_core_answer now answer topic question_text).timestamp =
      (p.process_followup_answer now answer topic followup_question ai).timestamp ∧
    (p.process_core_answer now answer topic question_text).is_ai_generated = false ∧
    (p.process_followup_answer now answer topic followup_question ai).is_ai_generated = ai := by
  by_cases h : pyStrip answer = "" <;>
    simp [AnswerProcessor.process_core_answer, AnswerProcessor.process_followup_answer, h]

/-- C9 witness: the amended theorem at a blank and at a non-blank input. -/
theorem c9_blank_sentinel_witness :
    (exProc.process_core_answer 0 "  " exTopic none).answer = "用户未给出有效回答" ∧
    (exProc.process_core_answer 0 " 具体说来 " exTopic none).answer = "具体说来" := by
  constructor
  · exact ((c9_blank_sentinel exProc 0 "  " exTopic none "F" false).1 (by decide)).1
  · exact (((c9_blank_sentinel exProc 0 " 具体说来 " exTopic none "F" false).2.1 (by decide)).1).trans
      (by decide)

/-! ## C10: determinism without a provider -/

/-- C10: with llm = None the follow-up decision is a pure function of its
arguments and the configuration: any two generator instances with no
provider and the same configuration return the identical FollowupResult on
the same answer, topic, conversation log, count, depth score and the same
non-None seed (the seeded rng being the same deterministic oracle). -/
theorem c10_no_llm_determinism (g₁ g₂ : FollowupGenerator) (pick : Picker)
    (answer : String) (topic : Topic) (log : Option (List ConversationEntry))
    (c d : Nat) (s : Nat)
    (h₁ : g₁.llm = none) (h₂ : g₂.llm = none)
    (hmin : g₁.min_answer_length = g₂.min_answer_length)
    (hmaxf : g₁.max_followups_per_question = g₂.max_followups_per_question)
    (hmaxd : g₁.max_depth_score = g₂.max_depth_score) :
    g₁.should_followup pick answer topic log c d (some s) =
      g₂.should_followup pick answer topic log c d (some s) := by
  unfold FollowupGenerator.should_followup
  rw [h₁, h₂, hmin, hmaxf, hmaxd]

/-- C10 witness: two distinct generator records with the same configuration
and no provider agree at a concrete input. -/
theorem c10_no_llm_determinism_witness :
    exGen.should_followup headPick "短" exTopic none 0 0 (some 7) =
      FollowupGenerator.should_followup
        { llm := none, min_answer_length := 15, max_followups_per_question := 3,
          max_depth_score := 4 } headPick "短" exTopic none 0 0 (some 7) :=
  c10_no_llm_determinism exGen _ headPick "短" exTopic none 0 0 7 rfl rfl rfl rfl rfl

/-! ## Service-level fixtures -/

/-- Second concrete topic. -/
def exTopic2 : Topic :=
  { name := "家庭-智育"
    scene := "家庭"
    edu_type := "智育"
    questions := ["在家里你如何安排学习？"]
    followups := ["能举个例子吗？"] }

/-- Concrete service: default processor/generator, two questions. -/
def exSvc : InterviewService :=
  { processor := exProc, generator := exGen, pick := headPick,
    total_questions := 2, seed := some 1 }

/-- Fresh concrete session state with two selected topics. -/
def exState : ServiceState :=
  { session :=
    { user_name := "u", status := .active, current_question_idx := 0,
      selected_topics := [exTopic, exTopic2], is_followup := false,
      current_followup_is_ai := false, current_followup_count := 0,
      current_followup_question := "" }
    entries := [] }

/-- The session after answering "x" on the first question: headPick returns
the first preset, the follow-up sub-state is entered with count 1. -/
def exSession1 : DSession :=
  { user_name := "u", status := .active, current_question_idx := 0,
    selected_topics := [exTopic, exTopic2], is_followup := true,
    current_followup_is_ai := false, current_followup_count := 1,
    current_followup_question := "能再具体说说吗？" }

/-- The conversation entry logged for that turn. -/
def exEntry1 : ConversationEntry :=
  { timestamp := 0, topic := "学校-德育", question_type := "核心问题",
    question := "【第1/2题】学校-德育:\n你如何看待校园诚信？",
    answer := "x", depth_score := 0, is_ai_generated := false }

/-- A completed concrete session state. -/
def exStateDone : ServiceState :=
  { session :=
    { user_name := "u", status := .completed, current_question_idx := 2,
      selected_topics := [exTopic, exTopic2], is_followup := false,
      current_followup_is_ai := false, current_followup_count := 0,
      current_followup_question := "" }
    entries := [exEntry1] }

/-! ## Follow-up count invariant lemmas -/

theorem processCore_count_le (svc : InterviewService) (now : Nat) (st : ServiceState)
    (topic : Topic) (answer : String) :
    (svc.processCore now st topic answer).1.session.current_followup_count ≤
      svc.generator.max_followups_per_question := by
  simp only [InterviewService.processCore]
  split
  case isTrue h =>
    exact Nat.succ_le_of_lt (should_followup_need_lt _ _ _ _ _ _ _ _ h)
  case isFalse h =>
    split <;> exact Nat.zero_le _

theorem processFollowup_count_le (svc : InterviewService) (now : Nat) (st : ServiceState)
    (topic : Topic) (answer : String) :
    (svc.processFollowup now st topic answer).1.session.current_followup_count ≤
      svc.generator.max_followups_per_question := by
  simp only [InterviewService.processFollowup]
  split
  all_goals
    split
    case isTrue h =>
      exact Nat.succ_le_of_lt (should_followup_need_lt _ _ _ _ _ _ _ _ h)
    case isFalse h =>
      split <;> exact Nat.zero_le _

theorem processAnswer_count_le (svc : InterviewService) (now : Nat) (st : ServiceState)
    (answer : String) (st' : ServiceState) (r : InterviewResultDTO)
    (hinv : st.session.current_followup_count ≤ svc.generator.max_followups_per_question)
    (hok : svc.processAnswer now st answer = .ok (st', r)) :
    st'.session.current_followup_count ≤ svc.generator.max_followups_per_question := by
  unfold InterviewService.processAnswer at hok
  split at hok
  · exact absurd hok (by simp)
  · split at hok
    · simp only [Except.ok.injEq, Prod.mk.injEq] at hok
      rw [← hok.1]
      exact hinv
    · split at hok
      · rename_i topic heq hfoll
        simp only [Except.ok.injEq] at hok
        have hle := processFollowup_count_le svc now st topic answer
        rw [hok] at hle
        exact hle
      · rename_i topic heq hfoll
        simp only [Except.ok.injEq] at hok
        have hle := processCore_count_le svc now st topic answer
        rw [hok] at hle
        exact hle

/-! ## C2: follow-up ceiling -/

/-- C2: the ceiling invariant.  First, should_followup called with
current_followup_count at or above max_followups_per_question returns
need_followup = false (with empty question and non-AI).  Second, any
sequence of process_answer calls preserves current_followup_count at or
below max_followups_per_question: the count only grows on a turn whose
should_followup said yes, which requires the count to be strictly below the
ceiling. -/
theorem c2_followup_ceiling (svc : InterviewService) (now : Nat) (st : ServiceState)
    (answers : List String) (st' : ServiceState)
    (hinv : st.session.current_followup_count ≤ svc.generator.max_followups_per_question)
    (hrun : runAnswers svc now st answers = .ok st') :
    (∀ (pick : Picker) (a : String) (t : Topic) (log : Option (List ConversationEntry))
      (c d : Nat) (s : Option Nat), svc.generator.max_followups_per_question ≤ c →
      svc.generator.should_followup pick a t log c d s = ⟨false, "", false⟩) ∧
    st'.session.current_followup_count ≤ svc.generator.max_followups_per_question := by
  refine ⟨fun pick a t log c d s h => should_followup_ceiling _ pick a t log c d s h, ?_⟩
  induction answers generalizing st with
  | nil =>
    unfold runAnswers at hrun
    simp only [Except.ok.injEq] at hrun
    rw [← hrun]
    exact hinv
  | cons a rest ih =>
    unfold runAnswers at hrun
    cases hstep : svc.processAnswer now st a with
    | error e => rw [hstep] at hrun; simp at hrun
    | ok q =>
      rw [hstep] at hrun
      exact ih q.1 (processAnswer_count_le svc now st a q.1 q.2 hinv hstep) hrun

/-- C2 witness: concrete ceiling rejection at count 3 and the invariant
after one concrete process_answer call on a fresh session. -/
theorem c2_followup_ceiling_witness :
    exGen.should_followup headPick "whatever" exTopic none 3 0 none = ⟨false, "", false⟩ ∧
    exSession1.current_followup_count ≤ exGen.max_followups_per_question := by
  have h := c2_followup_ceiling exSvc 0 exState ["x"] ⟨exSession1, [exEntry1]⟩
    (by decide) (by rfl)
  exact ⟨h.1 headPick "whatever" exTopic none 3 0 none (by decide), h.2⟩

/-! ## C6: terminal-state handling -/

/-- C6: on a COMPLETED session, process_answer and skip_question fail with
the session-already-completed condition (the check precedes any append or
mutation, and the embedding returns the error with no new state); undo_last
remains valid whenever an entry exists and always resets the status to
ACTIVE (in particular when it removes the completing turn's entry); restart
remains valid, yielding an ACTIVE session with an empty log. -/
theorem c6_terminal_state (svc : InterviewService) (now : Nat) (st : ServiceState)
    (answer : String) (h : st.session.status = .completed) :
    svc.processAnswer now st answer = .error .session_already_completed ∧
    svc.skipQuestion now st = .error .session_already_completed ∧
    (∀ st', svc.undoLast st = .ok st' →
      st'.session.status = .active ∧ st'.entries = st.entries.dropLast) ∧
    (st.entries ≠ [] → ∃ st', svc.undoLast st = .ok st') ∧
    (svc.restart st).session.status = .active ∧ (svc.restart st).entries = [] := by
  refine ⟨?_, ?_, ?_, ?_, rfl, rfl⟩
  · unfold InterviewService.processAnswer
    simp [h]
  · unfold InterviewService.skipQuestion
    simp [h]
  · intro st' hok
    unfold InterviewService.undoLast at hok
    cases hlast : st.entries.getLast? with
    | none => rw [hlast] at hok; simp at hok
    | some last =>
      rw [hlast] at hok
      simp only [Except.ok.injEq] at hok
      rw [← hok]
      constructor
      · split <;> rename_i hq <;> simp [h]
      · rfl
  · intro hne
    unfold InterviewService.undoLast
    cases hlast : st.entries.getLast? with
    | none => exact absurd (List.getLast?_eq_none_iff.mp hlast) hne
    | some last => exact ⟨_, rfl⟩

/-- C6 witness: concrete completed session: both mutating calls fail, undo
succeeds and resurrects the session to ACTIVE, restart resets it. -/
theorem c6_terminal_state_witness :
    exSvc.processAnswer 0 exStateDone "x" = .error .session_already_completed ∧
    exSvc.skipQuestion 0 exStateDone = .error .session_already_completed ∧
    ((exSvc.undoLast exStateDone).toOption.map (fun q => q.session.status)) =
      some SessionStatus.active ∧
    (exSvc.restart exStateDone).session.status = .active := by
  have h := c6_terminal_state exSvc 0 exStateDone "x" rfl
  refine ⟨h.1, h.2.1, ?_, h.2.2.2.2.1⟩
  obtain ⟨st', hok⟩ := h.2.2.2.1 (by decide)
  rw [hok]
  show some st'.session.status = some SessionStatus.active
  rw [(h.2.2.1 st' hok).1]

/-! ## C7: state-machine termination -/

theorem processCore_advances (svc : InterviewService) (now : Nat) (st : ServiceState)
    (topic : Topic) (answer : String)
    (hllm : svc.generator.llm = none)
    (hlen : svc.generator.min_answer_length ≤ (pyStrip answer).length) :
    (svc.processCore now st topic answer).1.session.current_question_idx =
        st.session.current_question_idx + 1 ∧
    (svc.processCore now st topic answer).1.session.is_followup = false ∧
    (svc.processCore now st topic answer).1.session.current_followup_count = 0 ∧
    (svc.processCore now st topic answer).1.session.selected_topics =
        st.session.selected_topics ∧
    (svc.processCore now st topic answer).1.session.status =
      (if svc.total_questions ≤ st.session.current_question_idx + 1 then
        SessionStatus.completed else st.session.status) := by
  have hno : svc.generator.should_followup svc.pick
      (svc.processor.process_core_answer now answer topic
        (some (formatCoreQuestion svc st.session topic))).answer topic none
      st.session.current_followup_count
      (svc.processor.process_core_answer now answer topic
        (some (formatCoreQuestion svc st.session topic))).depth_score svc.seed =
      ⟨false, "", false⟩ := by
    have hans : (svc.processor.process_core_answer now answer topic
        (some (formatCoreQuestion svc st.session topic))).answer =
        (if pyStrip answer = "" then "用户未给出有效回答" else pyStrip answer) := rfl
    rw [hans]
    by_cases hb : pyStrip answer = ""
    · rw [if_pos hb]
      apply should_followup_no_llm_long _ _ _ _ _ _ _ _ hllm
      · decide
      · have hzero : svc.generator.min_answer_length = 0 := by
          rw [hb] at hlen
          simpa using hlen
        rw [hzero]
        exact Nat.zero_le _
    · rw [if_neg hb]
      apply should_followup_no_llm_long _ _ _ _ _ _ _ _ hllm
      · rw [pyStrip_idem]
        exact hb
      · rw [pyStrip_idem]
        exact hlen
  simp only [InterviewService.processCore, hno]
  by_cases hT : svc.total_questions ≤ st.session.current_question_idx + 1 <;> simp [hT]

theorem processAnswer_step (svc : InterviewService) (now : Nat) (st : ServiceState)
    (answer : String)
    (hstatus : st.session.status = .active)
    (hf : st.session.is_followup = false)
    (hidx : st.session.current_question_idx < svc.total_questions)
    (hsel : st.session.selected_topics.length = svc.total_questions)
    (hllm : svc.generator.llm = none)
    (hmin : svc.generator.min_answer_length ≤ (pyStrip answer).length) :
    ∃ q, svc.processAnswer now st answer = .ok q ∧
      q.1.session.current_question_idx = st.session.current_question_idx + 1 ∧
      q.1.session.is_followup = false ∧
      q.1.session.current_followup_count = 0 ∧
      q.1.session.selected_topics = st.session.selected_topics ∧
      q.1.session.status = (if svc.total_questions ≤ st.session.current_question_idx + 1
        then SessionStatus.completed else SessionStatus.active) := by
  have ht : getCurrentTopic st.session =
      some (st.session.selected_topics.get ⟨st.session.current_question_idx, hsel ▸ hidx⟩) := by
    unfold getCurrentTopic
    exact List.get?_eq_get (hsel ▸ hidx)
  refine ⟨svc.processCore now st
    (st.session.selected_topics.get ⟨st.session.current_question_idx, hsel ▸ hidx⟩)
    answer, ?_, ?_⟩
  · unfold InterviewService.processAnswer
    rw [ht]
    simp [hstatus, hf]
  · have h := processCore_advances svc now st
      (st.session.selected_topics.get ⟨st.session.current_question_idx, hsel ▸ hidx⟩)
      answer hllm hmin
    rw [hstatus] at h
    exact h

theorem runAnswers_drive (svc : InterviewService) (now : Nat) :
    ∀ (answers : List String) (st : ServiceState),
    st.session.status = .active →
    st.session.is_followup = false →
    svc.generator.llm = none →
    st.session.selected_topics.length = svc.total_questions →
    st.session.current_question_idx + answers.length ≤ svc.total_questions →
    (∀ a ∈ answers, svc.generator.min_answer_length ≤ (pyStrip a).length) →
    ∃ st', runAnswers svc now st answers = .ok st' ∧
      st'.session.current_question_idx = st.session.current_question_idx + answers.length ∧
      st'.session.status =
        (if st.session.current_question_idx + answers.length = svc.total_questions ∧
            answers ≠ [] then SessionStatus.completed else SessionStatus.active)
  | [], st, hstatus, _, _, _, _, _ => by
    refine ⟨st, rfl, by simp, ?_⟩
    simp [hstatus]
  | a :: rest, st, hstatus, hf, hllm, hsel, hbudget, hmin => by
    have hidx : st.session.current_question_idx < svc.total_questions := by
      simp only [List.length_cons] at hbudget
      omega
    obtain ⟨q, hok, hqidx, hqf, hqc, hqsel, hqstatus⟩ :=
      processAnswer_step svc now st a hstatus hf hidx hsel hllm
        (hmin a (List.mem_cons_self a rest))
    by_cases hrest : rest = []
    · subst hrest
      refine ⟨q.1, ?_, ?_, ?_⟩
      · unfold runAnswers
        rw [hok]
        rfl
      · simpa using hqidx
      · rw [hqstatus]
        simp only [List.length_cons, List.length_nil]
        have : svc.total_questions ≤ st.session.current_question_idx + 1 ↔
            st.session.current_question_idx + 1 = svc.total_questions := by
          simp only [List.length_cons, List.length_nil] at hbudget
          omega
        by_cases hEq : st.session.current_question_idx + 1 = svc.total_questions
        · simp [this.mpr hEq, hEq]
        · simp [hEq, (not_iff_not.mpr this).mpr hEq]
    · have hlt : st.session.current_question_idx + 1 < svc.total_questions := by
        simp only [List.length_cons] at hbudget
        have : 0 < rest.length := List.length_pos.mpr hrest
        omega
      have hqactive : q.1.session.status = .active := by
        rw [hqstatus, if_neg (Nat.not_le.mpr hlt)]
      obtain ⟨st', hrun, hidx', hstatus'⟩ :=
        runAnswers_drive svc now rest q.1 hqactive hqf hllm (hqsel ▸ hsel)
          (by rw [hqidx]; simp only [List.length_cons] at hbudget; omega)
          (fun b hb => hmin b (List.mem_cons_of_mem a hb))
      refine ⟨st', ?_, ?_, ?_⟩
      · unfold runAnswers
        rw [hok]
        exact hrun
      · rw [hidx', hqidx]
        simp [Nat.add_assoc, Nat.add_comm 1 rest.length]
      · rw [hstatus', hqidx]
        have harith : st.session.current_question_idx + 1 + rest.length =
            st.session.current_question_idx + (a :: rest).length := by
          simp [Nat.add_assoc, Nat.add_comm 1 rest.length]
        by_cases hEq : st.session.current_question_idx + (a :: rest).length =
            svc.total_questions
        · rw [if_pos ⟨harith.trans hEq, hrest⟩, if_pos ⟨hEq, by simp⟩]
        · rw [if_neg ?_, if_neg ?_]
          · intro hcon
            exact hEq hcon.1
          · intro hcon
            exact hEq (harith.symm.trans hcon.1)

/-- C7: starting from a fresh session (index 0, ACTIVE, total_questions
selected topics), with no provider and every answer long enough to avoid a
follow-up, each process_answer call increments current_question_idx by
exactly one, driving it from 0 to total_questions, and the status is
COMPLETED exactly on reaching total_questions: after the first k calls the
index is k and the status is COMPLETED iff k = total_questions. -/
theorem c7_state_machine_termination (svc : InterviewService) (now : Nat)
    (st : ServiceState) (answers : List String)
    (hstatus : st.session.status = .active)
    (hf : st.session.is_followup = false)
    (hidx : st.session.current_question_idx = 0)
    (hllm : svc.generator.llm = none)
    (hsel : st.session.selected_topics.length = svc.total_questions)
    (hans : answers.length = svc.total_questions)
    (hmin : ∀ a ∈ answers, svc.generator.min_answer_length ≤ (pyStrip a).length)
    (hpos : 0 < svc.total_questions) :
    ∀ k, k ≤ svc.total_questions →
      ∃ st', runAnswers svc now st (answers.take k) = .ok st' ∧
        st'.session.current_question_idx = k ∧
        (st'.session.status = SessionStatus.completed ↔ k = svc.total_questions) := by
  intro k hk
  have htake : (answers.take k).length = k := by
    rw [List.length_take, hans]
    omega
  obtain ⟨st', hrun, hidx', hstatus'⟩ := runAnswers_drive svc now (answers.take k) st
    hstatus hf hllm hsel (by rw [hidx, htake]; omega)
    (fun a ha => hmin a (List.mem_of_mem_take ha))
  refine ⟨st', hrun, by rw [hidx', hidx, htake, Nat.zero_add], ?_⟩
  rw [hstatus', hidx, htake, Nat.zero_add]
  by_cases hEq : k = svc.total_questions
  · have hne : answers.take k ≠ [] := by
      rw [← List.length_pos, htake]
      omega
    rw [if_pos ⟨hEq, hne⟩]
    simp [hEq]
  · rw [if_neg (fun hcon => hEq hcon.1)]
    simp [hEq]

/-- C7 witness: two long answers on the two-question fixture: after one call
the index is 1 and the session is ACTIVE; after the second it is 2 and
COMPLETED. -/
theorem c7_state_machine_termination_witness :
    ((runAnswers exSvc 0 exState ((["这个回答足够长了吧我觉得可以了",
        "这个回答也足够长了吧我觉得可以"]).take 1)).toOption.map
      (fun q => (q.session.current_question_idx, q.session.status))) =
        some (1, SessionStatus.active) ∧
    ((runAnswers exSvc 0 exState ((["这个回答足够长了吧我觉得可以了",
        "这个回答也足够长了吧我觉得可以"]).take 2)).toOption.map
      (fun q => (q.session.current_question_idx, q.session.status))) =
        some (2, SessionStatus.completed) := by
  have h := c7_state_machine_termination exSvc 0 exState
    ["这个回答足够长了吧我觉得可以了", "这个回答也足够长了吧我觉得可以"]
    rfl rfl rfl rfl rfl rfl (by decide) (by decide)
  constructor
  · obtain ⟨st', hrun, hidx', hiff⟩ := h 1 (by decide)
    rw [hrun]
    show some (st'.session.current_question_idx, st'.session.status) = _
    have : st'.session.status = SessionStatus.active := by
      cases hs : st'.session.status with
      | active => rfl
      | completed => exact absurd (hiff.mp hs) (by decide)
    rw [hidx', this]
  · obtain ⟨st', hrun, hidx', hiff⟩ := h 2 (by decide)
    rw [hrun]
    show some (st'.session.current_question_idx, st'.session.status) = _
    rw [hidx', hiff.mpr rfl]

/-! ## C3: undo atomicity -/

theorem rollback_fail_of_db_false (session : WebSession) (target : Nat)
    (snap : SessionSnapshot) :
    rollback_session (some false) session target snap = (false, session) := by
  by_cases hval : session.conversation_log.length < target
  · simp only [rollback_session, if_pos hval]
  · simp only [rollback_session, if_neg hval, if_pos rfl, ite_true]

theorem rollback_success_fields (db : Option Bool) (session : WebSession)
    (target : Nat) (snap : SessionSnapshot)
    (hsucc : (rollback_session db session target snap).1 = true) :
    (rollback_session db session target snap).2.conversation_log.length = target ∧
    (rollback_session db session target snap).2.current_question_idx =
      snap.current_question_idx ∧
    (rollback_session db session target snap).2.is_followup = snap.is_followup ∧
    (rollback_session db session target snap).2.current_followup_count =
      snap.current_followup_count ∧
    (rollback_session db session target snap).2.current_followup_question =
      snap.current_followup_question ∧
    (rollback_session db session target snap).2.current_followup_is_ai =
      snap.current_followup_is_ai ∧
    (rollback_session db session target snap).2.is_finished = snap.is_finished ∧
    (rollback_session db session target snap).2.end_time =
      (if snap.is_finished then snap.end_time else "") := by
  by_cases hval : session.conversation_log.length < target
  · exfalso
    simp only [rollback_session, if_pos hval] at hsucc
    exact absurd hsucc (by simp)
  · by_cases hdb : db = some false
    · exfalso
      simp only [rollback_session, if_neg hval, if_pos hdb] at hsucc
      exact absurd hsucc (by simp)
    · have hle : target ≤ session.conversation_log.length := Nat.le_of_not_lt hval
      simp only [rollback_session, if_neg hval, if_neg hdb]
      simp [Nat.min_eq_left hle]

/-- C3: undo atomicity of web_handler.undo_last over
session_manager.rollback_session.  When the database rollback call reports
failure, the snapshot stays on the undo stack and the in-memory session - its
conversation log, question index, follow-up sub-state, finished status and
end time - is bit-for-bit what it was.  When the rollback succeeds, the
snapshot is popped and the session is the rollback result: the log is trimmed
exactly to the snapshot's recorded count and every captured field is
overwritten with the snapshot's value (end_time under the snapshot sanity
condition that an unfinished snapshot carries an empty end time, which is
how _capture_session_state records reachable sessions). -/
theorem c3_undo_atomicity (db : Option Bool) (hst : HandlerState)
    (snap : UndoSnapshot) (rest : List UndoSnapshot)
    (hstack : hst.undo_stack = snap :: rest)
    (hsnap : snap.session_state_before.is_finished = false →
      snap.session_state_before.end_time = "") :
    (db = some false →
      (web_undo_last db hst).1.undo_stack = hst.undo_stack ∧
      (web_undo_last db hst).1.session = hst.session) ∧
    ((rollback_session db hst.session snap.log_count_before snap.session_state_before).1 =
        true →
      (web_undo_last db hst).1.undo_stack = rest ∧
      (web_undo_last db hst).1.session =
        (rollback_session db hst.session snap.log_count_before snap.session_state_before).2 ∧
      (rollback_session db hst.session snap.log_count_before
        snap.session_state_before).2.conversation_log.length = snap.log_count_before ∧
      (rollback_session db hst.session snap.log_count_before
        snap.session_state_before).2.current_question_idx =
          snap.session_state_before.current_question_idx ∧
      (rollback_session db hst.session snap.log_count_before
        snap.session_state_before).2.is_followup = snap.session_state_before.is_followup ∧
      (rollback_session db hst.session snap.log_count_before
        snap.session_state_before).2.current_followup_count =
          snap.session_state_before.current_followup_count ∧
      (rollback_session db hst.session snap.log_count_before
        snap.session_state_before).2.current_followup_question =
          snap.session_state_before.current_followup_question ∧
      (rollback_session db hst.session snap.log_count_before
        snap.session_state_before).2.current_followup_is_ai =
          snap.session_state_before.current_followup_is_ai ∧
      (rollback_session db hst.session snap.log_count_before
        snap.session_state_before).2.is_finished = snap.session_state_before.is_finished ∧
      (rollback_session db hst.session snap.log_count_before
        snap.session_state_before).2.end_time = snap.session_state_before.end_time) := by
  constructor
  · intro hdb
    subst hdb
    unfold web_undo_last
    rw [hstack]
    simp [rollback_fail_of_db_false]
  · intro hsucc
    have hfields := rollback_success_fields db hst.session snap.log_count_before
      snap.session_state_before hsucc
    have hweb : (web_undo_last db hst).1 =
        ⟨rest, (rollback_session db hst.session snap.log_count_before
          snap.session_state_before).2, snap.history_before⟩ := by
      unfold web_undo_last
      rw [hstack]
      simp [hsucc]
    refine ⟨by rw [hweb], by rw [hweb], hfields.1, hfields.2.1, hfields.2.2.1,
      hfields.2.2.2.1, hfields.2.2.2.2.1, hfields.2.2.2.2.2.1, hfields.2.2.2.2.2.2.1, ?_⟩
    rw [hfields.2.2.2.2.2.2.2]
    cases hfin : snap.session_state_before.is_finished with
    | true => rw [if_pos rfl]
    | false => rw [if_neg (by simp), (hsnap hfin).symm]

/-! ### C3 fixtures and witness -/

/-- Concrete legacy web session with two logged entries. -/
def exWebSession : WebSession :=
  { session_id := "s1", user_name := "u", start_time := "t0", end_time := "",
    is_finished := false, current_question_idx := 1, is_followup := false,
    current_followup_is_ai := false, current_followup_count := 0,
    current_followup_question := "", selected_topics := [exTopic, exTopic2],
    conversation_log := [exEntry1, exEntry1] }

/-- Captured session fields before the operation being undone. -/
def exSnapState : SessionSnapshot :=
  { session_id := "s1", current_question_idx := 0, is_finished := false,
    end_time := "", is_followup := false, current_followup_is_ai := false,
    current_followup_count := 0, current_followup_question := "" }

/-- Undo snapshot recording one logged entry before the operation. -/
def exUndoSnap : UndoSnapshot :=
  { history_before := [], submitted_text := "x",
    session_state_before := exSnapState, log_count_before := 1 }

/-- Handler state holding that single snapshot. -/
def exHandler : HandlerState :=
  { undo_stack := [exUndoSnap], session := exWebSession, history := [] }

/-- C3 witness: with the database rollback failing, the stack and session are
untouched; with rollback succeeding (no database), the snapshot is popped,
the log is trimmed to one entry and the index restored to 0. -/
theorem c3_undo_atomicity_witness :
    ((web_undo_last (some false) exHandler).1.undo_stack = [exUndoSnap] ∧
     (web_undo_last (some false) exHandler).1.session = exWebSession) ∧
    ((web_undo_last none exHandler).1.undo_stack = [] ∧
     (web_undo_last none exHandler).1.session.conversation_log.length = 1 ∧
     (web_undo_last none exHandler).1.session.current_question_idx = 0) := by
  have hfail := (c3_undo_atomicity (some false) exHandler exUndoSnap [] rfl
    (fun _ => rfl)).1 rfl
  have hsucc := (c3_undo_atomicity none exHandler exUndoSnap [] rfl
    (fun _ => rfl)).2 rfl
  refine ⟨⟨hfail.1, hfail.2⟩, hsucc.1, ?_, ?_⟩
  · rw [hsucc.2.1]
    exact hsucc.2.2.1
  · rw [hsucc.2.1]
    exact hsucc.2.2.2.1

/-! ## C4: selector lemmas -/

theorem pickScenes_ext (pickT : Nat → List Topic → Topic)
    (scene_group : String → List Topic) (total : Nat) :
    ∀ (scenes : List String) (sel : List Topic) (n : Nat),
      ∃ ext, (pickScenes pickT scene_group total scenes sel n).1 = sel ++ ext
  | [], sel, n => ⟨[], by simp [pickScenes]⟩
  | s :: rest, sel, n => by
    by_cases h : total ≤ sel.length
    · refine ⟨[], ?_⟩
      simp [pickScenes, h]
    · by_cases hg : (scene_group s).isEmpty
      · obtain ⟨ext, hext⟩ := pickScenes_ext pickT scene_group total rest sel n
        refine ⟨ext, ?_⟩
        simp only [pickScenes, if_neg h]
        rw [if_pos hg]
        exact hext
      · obtain ⟨ext, hext⟩ := pickScenes_ext pickT scene_group total rest
          (sel ++ [pickT n (scene_group s)]) (n + 1)
        refine ⟨pickT n (scene_group s) :: ext, ?_⟩
        simp only [pickScenes, if_neg h]
        rw [if_neg hg, hext, List.append_assoc]
        rfl

theorem pickScenes_len (pickT : Nat → List Topic → Topic)
    (scene_group : String → List Topic) (total : Nat) :
    ∀ (scenes : List String) (sel : List Topic) (n : Nat),
      (pickScenes pickT scene_group total scenes sel n).1.length ≤
        sel.length + scenes.length
  | [], sel, n => by simp [pickScenes]
  | s :: rest, sel, n => by
    by_cases h : total ≤ sel.length
    · simp [pickScenes, h]
    · by_cases hg : (scene_group s).isEmpty
      · have ih := pickScenes_len pickT scene_group total rest sel n
        simp only [pickScenes, if_neg h]
        rw [if_pos hg]
        refine le_trans ih ?_
        simp only [List.length_cons]
        omega
      · have ih := pickScenes_len pickT scene_group total rest
          (sel ++ [pickT n (scene_group s)]) (n + 1)
        simp only [pickScenes, if_neg h]
        rw [if_neg hg]
        refine le_trans ih ?_
        simp only [List.length_append, List.length_cons, List.length_nil]
        omega

theorem pickScenes_cover (pickT : Nat → List Topic → Topic)
    (scene_group : String → List Topic) (total : Nat)
    (hpick : ∀ (n : Nat) (l : List Topic), l ≠ [] → pickT n l ∈ l) :
    ∀ (scenes : List String) (sel : List Topic) (n : Nat) (s : String),
      s ∈ scenes → sel.length + scenes.length ≤ total → scene_group s ≠ [] →
      (∀ t ∈ scene_group s, t.scene = s) →
      ∃ t ∈ (pickScenes pickT scene_group total scenes sel n).1, t.scene = s
  | [], _, _, s, hmem, _, _, _ => absurd hmem (List.not_mem_nil s)
  | s0 :: rest, sel, n, s, hmem, hbudget, hne, hgs => by
    have hlt : sel.length < total := by
      simp only [List.length_cons] at hbudget
      omega
    rcases List.mem_cons.mp hmem with heq | hrest
    · subst heq
      have hg : ¬(scene_group s).isEmpty := by
        simpa [List.isEmpty_iff] using hne
      simp only [pickScenes, if_neg (Nat.not_le.mpr hlt)]
      rw [if_neg hg]
      obtain ⟨ext, hext⟩ := pickScenes_ext pickT scene_group total rest
        (sel ++ [pickT n (scene_group s)]) (n + 1)
      refine ⟨pickT n (scene_group s), ?_, hgs _ (hpick n _ hne)⟩
      rw [hext]
      exact List.mem_append_left _ (List.mem_append_right _ (List.mem_singleton.mpr rfl))
    · by_cases hg : (scene_group s0).isEmpty
      · simp only [pickScenes, if_neg (Nat.not_le.mpr hlt)]
        rw [if_pos hg]
        refine pickScenes_cover pickT scene_group total hpick rest sel n s hrest ?_ hne hgs
        simp only [List.length_cons] at hbudget
        omega
      · simp only [pickScenes, if_neg (Nat.not_le.mpr hlt)]
        rw [if_neg hg]
        refine pickScenes_cover pickT scene_group total hpick rest
          (sel ++ [pickT n (scene_group s0)]) (n + 1) s hrest ?_ hne hgs
        simp only [List.length_append, List.length_cons, List.length_nil] at hbudget ⊢
        omega

theorem fillEdu_ext (pickT : Nat → List Topic → Topic)
    (edu_group : String → List Topic) (total : Nat) (selected : List Topic) :
    ∀ (needed : List String) (filled : List Topic) (n : Nat),
      ∃ ext, (fillEdu pickT edu_group total selected needed filled n).1 = filled ++ ext
  | [], filled, n => ⟨[], by simp [fillEdu]⟩
  | e :: rest, filled, n => by
    by_cases hb : selected.length + filled.length < total
    · by_cases hc : ((edu_group e).filter (fun t => t ∉ selected ∧ t ∉ filled)).isEmpty
      · obtain ⟨ext, hext⟩ := fillEdu_ext pickT edu_group total selected rest filled n
        refine ⟨ext, ?_⟩
        simp only [fillEdu, if_pos hb]
        rw [if_pos hc]
        exact hext
      · obtain ⟨ext, hext⟩ := fillEdu_ext pickT edu_group total selected rest
          (filled ++ [pickT n ((edu_group e).filter (fun t => t ∉ selected ∧ t ∉ filled))])
          (n + 1)
        refine ⟨pickT n ((edu_group e).filter (fun t => t ∉ selected ∧ t ∉ filled)) :: ext, ?_⟩
        simp only [fillEdu, if_pos hb]
        rw [if_neg hc, hext, List.append_assoc]
        rfl
    · refine ⟨[], ?_⟩
      simp [fillEdu, hb]

theorem fillRemaining_ext (pickT : Nat → List Topic → Topic) (total selLen : Nat) :
    ∀ (fuel : Nat) (remaining filled : List Topic) (n : Nat),
      ∃ ext, fillRemaining pickT total selLen fuel remaining filled n = filled ++ ext
  | 0, remaining, filled, n => ⟨[], by simp [fillRemaining]⟩
  | fuel + 1, remaining, filled, n => by
    by_cases h : selLen + filled.length < total ∧ ¬remaining.isEmpty
    · obtain ⟨ext, hext⟩ := fillRemaining_ext pickT total selLen fuel
        (remaining.erase (pickT n remaining)) (filled ++ [pickT n remaining]) (n + 1)
      refine ⟨pickT n remaining :: ext, ?_⟩
      simp only [fillRemaining, if_pos h]
      rw [hext, List.append_assoc]
      rfl
    · refine ⟨[], ?_⟩
      simp only [fillRemaining]
      rw [if_neg h, List.append_nil]

theorem fillEdu_cover (pickT : Nat → List Topic → Topic)
    (edu_group : String → List Topic) (total : Nat) (selected : List Topic)
    (hpick : ∀ (n : Nat) (l : List Topic), l ≠ [] → pickT n l ∈ l) :
    ∀ (needed : List String) (filled : List Topic) (n : Nat) (e : String),
      e ∈ needed → selected.length + filled.length + needed.length ≤ total →
      edu_group e ≠ [] → (∀ t ∈ edu_group e, t.edu_type = e) →
      ∃ t, (t ∈ selected ∨
        t ∈ (fillEdu pickT edu_group total selected needed filled n).1) ∧
        t.edu_type = e
  | [], _, _, e, hmem, _, _, _ => absurd hmem (List.not_mem_nil e)
  | e0 :: rest, filled, n, e, hmem, hbudget, hne, hge => by
    have hb : selected.length + filled.length < total := by
      simp only [List.length_cons] at hbudget
      omega
    rcases List.mem_cons.mp hmem with heq | hrest
    · subst heq
      by_cases hc : ((edu_group e).filter (fun t => t ∉ selected ∧ t ∉ filled)).isEmpty
      · have hall : ∀ t ∈ edu_group e, t ∈ selected ∨ t ∈ filled := by
          intro t ht
          by_contra hcon
          push_neg at hcon
          have hmemf : t ∈ (edu_group e).filter (fun t => t ∉ selected ∧ t ∉ filled) :=
            List.mem_filter.mpr ⟨ht, by simp [hcon.1, hcon.2]⟩
          rw [List.isEmpty_iff.mp hc] at hmemf
          exact absurd hmemf (List.not_mem_nil t)
        obtain ⟨t0, ht0⟩ := List.exists_mem_of_ne_nil (edu_group e) hne
        have hstep : fillEdu pickT edu_group total selected (e :: rest) filled n =
            fillEdu pickT edu_group total selected rest filled n := by
          simp only [fillEdu, if_pos hb]
          rw [if_pos hc]
        rcases hall t0 ht0 with hsel | hfil
        · exact ⟨t0, Or.inl hsel, hge t0 ht0⟩
        · obtain ⟨ext, hext⟩ := fillEdu_ext pickT edu_group total selected rest filled n
          refine ⟨t0, Or.inr ?_, hge t0 ht0⟩
          rw [hstep, hext]
          exact List.mem_append_left _ hfil
      · have hcand : ((edu_group e).filter (fun t => t ∉ selected ∧ t ∉ filled)) ≠ [] := by
          simpa [List.isEmpty_iff] using hc
        have hx := hpick n _ hcand
        have hxg : pickT n ((edu_group e).filter (fun t => t ∉ selected ∧ t ∉ filled)) ∈
            edu_group e := (List.mem_filter.mp hx).1
        have hstep : fillEdu pickT edu_group total selected (e :: rest) filled n =
            fillEdu pickT edu_group total selected rest
              (filled ++ [pickT n ((edu_group e).filter (fun t => t ∉ selected ∧ t ∉ filled))])
              (n + 1) := by
          simp only [fillEdu, if_pos hb]
          rw [if_neg hc]
        obtain ⟨ext, hext⟩ := fillEdu_ext pickT edu_group total selected rest
          (filled ++ [pickT n ((edu_group e).filter (fun t => t ∉ selected ∧ t ∉ filled))])
          (n + 1)
        refine ⟨_, Or.inr ?_, hge _ hxg⟩
        rw [hstep, hext]
        exact List.mem_append_left _ (List.mem_append_right _ (List.mem_singleton.mpr rfl))
    · by_cases hc : ((edu_group e0).filter (fun t => t ∉ selected ∧ t ∉ filled)).isEmpty
      · have hstep : fillEdu pickT edu_group total selected (e0 :: rest) filled n =
            fillEdu pickT edu_group total selected rest filled n := by
          simp only [fillEdu, if_pos hb]
          rw [if_pos hc]
        rw [hstep]
        refine fillEdu_cover pickT edu_group total selected hpick rest filled n e hrest ?_
          hne hge
        simp only [List.length_cons] at hbudget
        omega
      · have hstep : fillEdu pickT edu_group total selected (e0 :: rest) filled n =
            fillEdu pickT edu_group total selected rest
              (filled ++ [pickT n ((edu_group e0).filter (fun t => t ∉ selected ∧ t ∉ filled))])
              (n + 1) := by
          simp only [fillEdu, if_pos hb]
          rw [if_neg hc]
        rw [hstep]
        refine fillEdu_cover pickT edu_group total selected hpick rest _ (n + 1) e hrest ?_
          hne hge
        simp only [List.length_append, List.length_cons, List.length_nil] at hbudget ⊢
        omega

theorem mem_sceneGroupOf (topics : List Topic) (s : String) (t : Topic) :
    t ∈ sceneGroupOf topics s ↔ t ∈ topics ∧ t.scene = s := by
  simp [sceneGroupOf, List.mem_filter]

theorem mem_eduGroupOf (topics : List Topic) (e : String) (t : Topic) :
    t ∈ eduGroupOf topics e ↔ t ∈ topics ∧ t.edu_type = e := by
  simp [eduGroupOf, List.mem_filter]

/-- C4 (amended): for every rng pick oracle whose choices are members and
every shuffle that preserves membership: (a) the scene part as claimed -
when total_questions is at least the number of configured scenes, every
configured scene having at least one topic is represented in the returned
selection; (b) the dimension part needs a stronger bound - when
total_questions is at least the number of scenes plus the number of
dimensions, every configured dimension having at least one topic is
represented. -/
theorem c4_selection_coverage (pickT : Nat → List Topic → Topic)
    (shuffle : List Topic → List Topic) (topics : List Topic)
    (scenes edu_types : List String) (total_questions : Nat)
    (hpick : ∀ (n : Nat) (l : List Topic), l ≠ [] → pickT n l ∈ l)
    (hshuffle : ∀ (l : List Topic) (t : Topic), t ∈ shuffle l ↔ t ∈ l) :
    (scenes.length ≤ total_questions →
      ∀ s ∈ scenes, (∃ t ∈ topics, t.scene = s) →
        ∃ t ∈ select_questions pickT shuffle topics scenes edu_types total_questions,
          t.scene = s) ∧
    (scenes.length + edu_types.length ≤ total_questions →
      ∀ e ∈ edu_types, (∃ t ∈ topics, t.edu_type = e) →
        ∃ t ∈ select_questions pickT shuffle topics scenes edu_types total_questions,
          t.edu_type = e) := by
  have hmem : ∀ t : Topic,
      t ∈ sq_selected pickT topics scenes total_questions ∨
      t ∈ sq_filledAll pickT topics scenes edu_types total_questions →
      t ∈ select_questions pickT shuffle topics scenes edu_types total_questions := by
    intro t ht
    unfold select_questions
    rw [hshuffle]
    rcases ht with h | h
    · exact List.mem_append_left _ h
    · exact List.mem_append_right _ h
  constructor
  · intro hlen s hs hex
    obtain ⟨t0, ht0, hs0⟩ := hex
    have hne : sceneGroupOf topics s ≠ [] := by
      intro hnil
      have hm := (mem_sceneGroupOf topics s t0).mpr ⟨ht0, hs0⟩
      rw [hnil] at hm
      exact absurd hm (List.not_mem_nil t0)
    have hgs : ∀ t ∈ sceneGroupOf topics s, t.scene = s :=
      fun t ht => ((mem_sceneGroupOf topics s t).mp ht).2
    obtain ⟨t, htmem, hts⟩ := pickScenes_cover pickT (sceneGroupOf topics)
      total_questions hpick scenes [] 0 s hs (by simpa using hlen) hne hgs
    exact ⟨t, hmem t (Or.inl htmem), hts⟩
  · intro hlen e he hex
    obtain ⟨t0, ht0, he0⟩ := hex
    by_cases hcov : e ∈ (sq_selected pickT topics scenes total_questions).map
        (fun t => t.edu_type)
    · obtain ⟨t, htmem, hte⟩ := List.mem_map.mp hcov
      exact ⟨t, hmem t (Or.inl htmem), hte⟩
    · have hneed : e ∈ sq_needed pickT topics scenes edu_types total_questions := by
        unfold sq_needed
        exact List.mem_filter.mpr ⟨he, by simpa using hcov⟩
      have hne : eduGroupOf topics e ≠ [] := by
        intro hnil
        have hm := (mem_eduGroupOf topics e t0).mpr ⟨ht0, he0⟩
        rw [hnil] at hm
        exact absurd hm (List.not_mem_nil t0)
      have hge : ∀ t ∈ eduGroupOf topics e, t.edu_type = e :=
        fun t ht => ((mem_eduGroupOf topics e t).mp ht).2
      have hsellen : (sq_selected pickT topics scenes total_questions).length ≤
          scenes.length := by
        have h := pickScenes_len pickT (sceneGroupOf topics) total_questions scenes [] 0
        simpa [sq_selected, sq_sceneOut] using h
      have hneedlen : (sq_needed pickT topics scenes edu_types total_questions).length ≤
          edu_types.length := List.length_filter_le _ _
      have hbudget : (sq_selected pickT topics scenes total_questions).length +
          ([] : List Topic).length +
          (sq_needed pickT topics scenes edu_types total_questions).length ≤
          total_questions := by
        simp only [List.length_nil]
        omega
      obtain ⟨t, hloc, hte⟩ := fillEdu_cover pickT (eduGroupOf topics) total_questions
        (sq_selected pickT topics scenes total_questions) hpick
        (sq_needed pickT topics scenes edu_types total_questions) []
        (sq_sceneOut pickT topics scenes total_questions).2 e hneed hbudget hne hge
      rcases hloc with hsel | hfil
      · exact ⟨t, hmem t (Or.inl hsel), hte⟩
      · obtain ⟨ext, hext⟩ := fillRemaining_ext pickT total_questions
          (sq_selected pickT topics scenes total_questions).length
          (sq_remaining pickT topics scenes edu_types total_questions).length
          (sq_remaining pickT topics scenes edu_types total_questions)
          (sq_filled pickT topics scenes edu_types total_questions)
          (sq_eduOut pickT topics scenes edu_types total_questions).2
        refine ⟨t, hmem t (Or.inr ?_), hte⟩
        unfold sq_filledAll
        rw [hext]
        refine List.mem_append_left _ ?_
        unfold sq_filled sq_eduOut
        exact hfil

/-! ### C4 fixtures, counterexample and witness -/

/-- Concrete rng oracle for topics: always the first element (one realizable
behaviour of the seeded rng). -/
def headTopicPick : Nat → List Topic → Topic := fun _ l => l.headD ⟨"", "", "", [], []⟩

theorem headTopicPick_mem : ∀ (n : Nat) (l : List Topic), l ≠ [] → headTopicPick n l ∈ l := by
  intro n l h
  cases l with
  | nil => exact absurd rfl h
  | cons a t => simp [headTopicPick]

/-- The three configured scenes. -/
def exScenes : List String := ["学校", "家庭", "社区"]

/-- The five configured education dimensions. -/
def exEdus : List String := ["德育", "智育", "体育", "美育", "劳育"]

/-- Concrete catalog: every scene and every dimension has at least one
topic, but the three per-scene topics all share the dimension 德育. -/
def exTopics : List Topic :=
  [⟨"学校-德育", "学校", "德育", ["q1"], ["f1"]⟩,
   ⟨"家庭-德育", "家庭", "德育", ["q2"], ["f2"]⟩,
   ⟨"社区-德育", "社区", "德育", ["q3"], ["f3"]⟩,
   ⟨"学校-智育", "学校", "智育", ["q4"], ["f4"]⟩,
   ⟨"学校-体育", "学校", "体育", ["q5"], ["f5"]⟩,
   ⟨"学校-美育", "学校", "美育", ["q6"], ["f6"]⟩,
   ⟨"学校-劳育", "学校", "劳育", ["q7"], ["f7"]⟩]

/-- C4 counterexample: with total_questions = 5 (at least the 3 scenes and
at least the 5 dimensions, every scene and dimension populated), there is a
realizable rng behaviour (first-element picks, identity shuffle - a
membership-preserving permutation) under which the selection covers no
美育 topic: the three scene picks all land on 德育, the gap-filling loop
runs out of budget after 智育 and 体育, and the remaining-fill never runs.
The dimension half of the claim is false as stated. -/
theorem c4_dimension_counterexample :
    exScenes.length ≤ 5 ∧ exEdus.length ≤ 5 ∧ ("美育" ∈ exEdus) ∧
    exScenes.all (fun s => exTopics.any (fun t => t.scene == s)) = true ∧
    exEdus.all (fun e => exTopics.any (fun t => t.edu_type == e)) = true ∧
    (select_questions headTopicPick id exTopics exScenes exEdus 5).length = 5 ∧
    (select_questions headTopicPick id exTopics exScenes exEdus 5).all
      (fun t => !(t.edu_type == "美育")) = true := by
  decide

/-- C4 witness: at the amended bound total_questions = 8 = 3 + 5 the same
catalog and rng cover both the scene 家庭 and the dimension 美育. -/
theorem c4_selection_coverage_witness :
    (select_questions headTopicPick id exTopics exScenes exEdus 8).any
      (fun t => t.scene == "家庭") = true ∧
    (select_questions headTopicPick id exTopics exScenes exEdus 8).any
      (fun t => t.edu_type == "美育") = true := by
  have h := c4_selection_coverage headTopicPick id exTopics exScenes exEdus 8
    headTopicPick_mem (fun l t => Iff.rfl)
  constructor
  · obtain ⟨t, ht, hs⟩ := h.1 (by decide) "家庭" (by decide)
      ⟨⟨"家庭-德育", "家庭", "德育", ["q2"], ["f2"]⟩, by decide, rfl⟩
    exact List.any_eq_true.mpr ⟨t, ht, by simp [hs]⟩
  · obtain ⟨t, ht, he⟩ := h.2 (by decide) "美育" (by decide)
      ⟨⟨"学校-美育", "学校", "美育", ["q6"], ["f6"]⟩, by decide, rfl⟩
    exact List.any_eq_true.mpr ⟨t, ht, by simp [he]⟩
